import Mathlib

/-!
Shallow embedding of `lib/lrgasp/metadata_validate.py` from the
lrgasp-submissions repository: a declarative field-validation engine.

Python's dynamically typed values are embedded as the inductive `Value`;
Python exceptions are embedded as `PyErr`, whose constructors stand for the
Python exception classes relevant to this module (`ValueError`, `TypeError`,
and the repository's own `LrgaspException`).  Fallible Python code becomes
`Except PyErr`-valued Lean functions.  Exception chaining (`raise ... from ex`)
is not modelled beyond the class and message of the exception finally raised;
the stray `print` calls in `_check_list` are side effects on stdout only and
are likewise not modelled.
-/

namespace Lrgasp

/-- A Python runtime value, restricted to the shapes this module manipulates:
strings, integers, mappings, lists, `None`, and instances of other classes
(such as `SymEnum` members, represented by their class name and symbolic
member name).  A mapping is carried abstractly as its printed form together
with its number of entries — the only two observations the engine makes of a
mapping besides its class. -/
inductive Value where
  | str (s : String)
  | int (n : Int)
  | dict (printed : String) (size : Nat)
  | list (elems : List Value)
  | obj (tyName : String) (symName : String)
  | none

mutual

/-- Equality of embedded values, Python's `==` on these shapes. -/
def Value.decEq : (a b : Value) → Decidable (a = b)
  | .str x, .str y =>
      if h : x = y then .isTrue (by rw [h]) else .isFalse (by intro he; cases he; exact h rfl)
  | .int x, .int y =>
      if h : x = y then .isTrue (by rw [h]) else .isFalse (by intro he; cases he; exact h rfl)
  | .dict p n, .dict q m =>
      if h1 : p = q then
        if h2 : n = m then .isTrue (by rw [h1, h2])
        else .isFalse (by intro he; cases he; exact h2 rfl)
      else .isFalse (by intro he; cases he; exact h1 rfl)
  | .list xs, .list ys =>
      match Value.decEqList xs ys with
      | .isTrue h => .isTrue (by rw [h])
      | .isFalse h => .isFalse (by intro he; cases he; exact h rfl)
  | .obj t s, .obj t2 s2 =>
      if h1 : t = t2 then
        if h2 : s = s2 then .isTrue (by rw [h1, h2])
        else .isFalse (by intro he; cases he; exact h2 rfl)
      else .isFalse (by intro he; cases he; exact h1 rfl)
  | .none, .none => .isTrue rfl
  | .str _, .int _ => .isFalse (by intro he; cases he)
  | .str _, .dict _ _ => .isFalse (by intro he; cases he)
  | .str _, .list _ => .isFalse (by intro he; cases he)
  | .str _, .obj _ _ => .isFalse (by intro he; cases he)
  | .str _, .none => .isFalse (by intro he; cases he)
  | .int _, .str _ => .isFalse (by intro he; cases he)
  | .int _, .dict _ _ => .isFalse (by intro he; cases he)
  | .int _, .list _ => .isFalse (by intro he; cases he)
  | .int _, .obj _ _ => .isFalse (by intro he; cases he)
  | .int _, .none => .isFalse (by intro he; cases he)
  | .dict _ _, .str _ => .isFalse (by intro he; cases he)
  | .dict _ _, .int _ => .isFalse (by intro he; cases he)
  | .dict _ _, .list _ => .isFalse (by intro he; cases he)
  | .dict _ _, .obj _ _ => .isFalse (by intro he; cases he)
  | .dict _ _, .none => .isFalse (by intro he; cases he)
  | .list _, .str _ => .isFalse (by intro he; cases he)
  | .list _, .int _ => .isFalse (by intro he; cases he)
  | .list _, .dict _ _ => .isFalse (by intro he; cases he)
  | .list _, .obj _ _ => .isFalse (by intro he; cases he)
  | .list _, .none => .isFalse (by intro he; cases he)
  | .obj _ _, .str _ => .isFalse (by intro he; cases he)
  | .obj _ _, .int _ => .isFalse (by intro he; cases he)
  | .obj _ _, .dict _ _ => .isFalse (by intro he; cases he)
  | .obj _ _, .list _ => .isFalse (by intro he; cases he)
  | .obj _ _, .none => .isFalse (by intro he; cases he)
  | .none, .str _ => .isFalse (by intro he; cases he)
  | .none, .int _ => .isFalse (by intro he; cases he)
  | .none, .dict _ _ => .isFalse (by intro he; cases he)
  | .none, .list _ => .isFalse (by intro he; cases he)
  | .none, .obj _ _ => .isFalse (by intro he; cases he)

def Value.decEqList : (a b : List Value) → Decidable (a = b)
  | [], [] => .isTrue rfl
  | [], _ :: _ => .isFalse (by intro he; cases he)
  | _ :: _, [] => .isFalse (by intro he; cases he)
  | x :: xs, y :: ys =>
      match Value.decEq x y with
      | .isFalse h => .isFalse (by intro he; cases he; exact h rfl)
      | .isTrue h1 =>
          match Value.decEqList xs ys with
          | .isTrue h2 => .isTrue (by rw [h1, h2])
          | .isFalse h2 => .isFalse (by intro he; cases he; exact h2 rfl)

end

instance : DecidableEq Value := Value.decEq

/-- A Python exception, identified by class and message.
`lrgaspErr` models `LrgaspException` from `lib/lrgasp/__init__.py`.
Modelled from the spec: that file is not part of the sources here; per the
spec's error-handling design it is the application's own exception class
(a plain `Exception` subclass), so an `except ValueError` clause does not
catch it. -/
inductive PyErr where
  | valueError (msg : String)
  | typeError (msg : String)
  | lrgaspErr (msg : String)
deriving DecidableEq

/-- The Python class name of an embedded exception. -/
def PyErr.className : PyErr → String
  | .valueError _ => "ValueError"
  | .typeError _ => "TypeError"
  | .lrgaspErr _ => "LrgaspException"

deriving instance DecidableEq for Except

mutual

/-- Python's `repr` on an embedded value (used by `str` on containers).
Modelled from the spec for values of external classes: the engine only
interpolates values into error messages. -/
def pyRepr : Value → String
  | .str s => "\x27" ++ s ++ "\x27"
  | .int n => toString n
  | .dict printed _ => printed
  | .list l => "[" ++ String.intercalate ", " (pyReprList l) ++ "]"
  | .obj tyName symName => "<" ++ tyName ++ "." ++ symName ++ ">"
  | .none => "None"

def pyReprList : List Value → List String
  | [] => []
  | v :: vs => pyRepr v :: pyReprList vs

end

/-- Python's `str` on an embedded value, as used by f-string interpolation.
A `SymEnum` member renders as its symbolic name (modelled from the spec:
`SymEnum` is external to these sources). -/
def pyStr : Value → String
  | .str s => s
  | .obj _ symName => symName
  | v => pyRepr v

/-- Python's `len` on an embedded value: defined on strings, lists and
mappings, a `TypeError` on everything else. -/
def pyLen : Value → Except PyErr Nat
  | .str s => .ok s.length
  | .list l => .ok l.length
  | .dict _ size => .ok size
  | .int _ => .error (.typeError "object of type \x27int\x27 has no len()")
  | .obj tyName _ => .error (.typeError ("object of type \x27" ++ tyName ++ "\x27 has no len()"))
  | .none => .error (.typeError "object of type \x27NoneType\x27 has no len()")

/-- A Python type object usable as a field's `dtype` or `element_dtype`:
the builtins `str`, `int`, `dict`, `list`, or a `SymEnum`-style enumeration
class given by its class name and its legal symbolic member names
(the source's docstring names `SymEnum` as the typical convertible dtype;
that class is external to these sources). -/
inductive DType where
  | str
  | int
  | dict
  | list
  | symEnum (tyName : String) (members : List String)

/-- Python `type.__name__` for an embedded type object. -/
def DType.name : DType → String
  | .str => "str"
  | .int => "int"
  | .dict => "dict"
  | .list => "list"
  | .symEnum tyName _ => tyName

/-- Python `isinstance(val, dtype)` for the embedded types. -/
def isinstance (val : Value) (dtype : DType) : Bool :=
  match val, dtype with
  | .str _, .str => true
  | .int _, .int => true
  | .dict _ _, .dict => true
  | .list _, .list => true
  | .obj tyName _, .symEnum tyName2 _ => tyName == tyName2
  | _, _ => false

/-- Calling a type object as a constructor, `dtype(val)`.
Modelled from the spec: the canonical constructors belong to Python and to
the external `SymEnum` class, with standard semantics: `str` stringifies
anything; `int` parses strings and is the identity on ints, `TypeError`
otherwise; `dict`/`list` accept only the matching shapes here; enum lookup
returns the member for a legal symbolic name or an existing member and
raises `ValueError` ("<repr> is not a valid <class>") for every other
value — CPython's `Enum.__new__` catches even the internal `TypeError`
from hashing an unhashable argument and ends in that `ValueError`. -/
def dtypeConstruct : DType → Value → Except PyErr Value
  | .str, v => .ok (.str (pyStr v))
  | .int, .int n => .ok (.int n)
  | .int, .str s =>
      match s.toInt? with
      | some n => .ok (.int n)
      | Option.none => .error (.valueError ("invalid literal for int() with base 10: " ++ pyRepr (.str s)))
  | .int, v => .error (.typeError ("int() argument must be a string or a number, not " ++ pyRepr v))
  | .dict, .dict p n => .ok (.dict p n)
  | .dict, v => .error (.typeError (pyRepr v ++ " is not a dict"))
  | .list, .list l => .ok (.list l)
  | .list, .str s => .ok (.list (s.data.map (fun c => .str (String.mk [c]))))
  | .list, v => .error (.typeError (pyRepr v ++ " object is not iterable"))
  | .symEnum tyName members, .str s =>
      if s ∈ members then .ok (.obj tyName s)
      else .error (.valueError (pyRepr (.str s) ++ " is not a valid " ++ tyName))
  | .symEnum tyName members, .obj tyName2 symName =>
      if tyName == tyName2 ∧ symName ∈ members then .ok (.obj tyName2 symName)
      else .error (.valueError (pyRepr (.obj tyName2 symName) ++ " is not a valid " ++ tyName))
  | .symEnum tyName _, v => .error (.valueError (pyRepr v ++ " is not a valid " ++ tyName))

/-- A validator callable: returns nothing on success, raises on failure. -/
abbrev Validator := Value → Except PyErr Unit

/-- The `Field` namedtuple: specification of one field's shape and rules. -/
structure Field where
  name : String
  dtype : DType
  element_dtype : Option DType
  allow_empty : Bool
  optional : Bool
  validator : Option Validator

/-- `Field.__new__`: rejects a `list` field without an `element_dtype`.
The message is the source's plain (non-f) string literal, so the
placeholder is not substituted. -/
def Field.new (name : String) (dtype : DType := DType.str)
    (element_dtype : Option DType := Option.none)
    (allow_empty : Bool := false) (optional : Bool := false)
    (validator : Option Validator := Option.none) : Except PyErr Field :=
  match dtype, element_dtype with
  | .list, Option.none => .error (.lrgaspErr "list field {name} must specify element_dtype")
  | _, _ => .ok ⟨name, dtype, element_dtype, allow_empty, optional, validator⟩

/-- The target record: a mutable attribute/key container (an `ObjDict` in the
callers), embedded as an association list with dict update semantics. -/
abbrev Obj := List (String × Value)

/-- Python `field.name in obj`: key membership. -/
def Obj.hasattr (obj : Obj) (k : String) : Bool :=
  obj.any (fun p => p.1 == k)

/-- Python `getattr(obj, k)` for a present key (first binding wins, as in a
dict, whose keys are unique). -/
def Obj.getattr (obj : Obj) (k : String) : Value :=
  match obj.find? (fun p => p.1 == k) with
  | some p => p.2
  | Option.none => Value.none

/-- Python `setattr(obj, k, v)`: dict update — replace the binding of an
existing key, append a new key at the end. -/
def Obj.setattr (obj : Obj) (k : String) (v : Value) : Obj :=
  match obj with
  | [] => [(k, v)]
  | (a, b) :: rest => if a == k then (k, v) :: rest else (a, b) :: Obj.setattr rest k v

def _should_convert (dtype : DType) : Bool :=
  match dtype with
  | .str | .int | .dict => false
  | _ => true

def _convert_type (desc : String) (field : Field) (dtype : DType) (val : Value) : Except PyErr Value :=
  match dtypeConstruct dtype val with
  | .ok v => .ok v
  | .error (.valueError _) =>
      .error (.lrgaspErr (desc ++ " field " ++ field.name ++ " is not a valid " ++ dtype.name ++ ": " ++ pyStr val))
  | .error e => .error e

/-- `_validate_value`: run the field's validator; only a `ValueError` from it
is re-raised as the LRGASP "is not valid" error, any other exception
propagates.  (The source assumes the validator is set; calling `None` would
be a `TypeError`.) -/
def _validate_value (desc : String) (field : Field) (val : Value) : Except PyErr Unit :=
  match field.validator with
  | Option.none => .error (.typeError "\x27NoneType\x27 object is not callable")
  | some f =>
      match f val with
      | .ok _ => .ok ()
      | .error (.valueError _) =>
          .error (.lrgaspErr (desc ++ " field " ++ field.name ++ " is not valid: " ++ pyStr val))
      | .error e => .error e

def _check_scalar (desc : String) (field : Field) (val : Value) : Except PyErr Value :=
  let typed : Except PyErr Value :=
    if _should_convert field.dtype then
      _convert_type desc field field.dtype val
    else if !(isinstance val field.dtype) then
      .error (.lrgaspErr (desc ++ " field " ++ field.name ++ " must be a " ++ field.dtype.name))
    else
      .ok val
  match typed with
  | .error e => .error e
  | .ok v =>
      match field.validator with
      | Option.none => .ok v
      | some _ =>
          match _validate_value desc field v with
          | .ok _ => .ok v
          | .error e => .error e

def _check_list_element (desc : String) (field : Field) (i : Nat) (val : Value) : Except PyErr Value :=
  let edt : Except PyErr DType :=
    match field.element_dtype with
    | Option.none => .error (.typeError "\x27NoneType\x27 object is not callable")
    | some dt => .ok dt
  match edt with
  | .error e => .error e
  | .ok dt =>
      let typed : Except PyErr Value :=
        if _should_convert dt then
          _convert_type desc field dt val
        else if !(isinstance val dt) then
          .error (.lrgaspErr (desc ++ " field " ++ field.name ++ "[" ++ toString i ++ "] must be a " ++ dt.name))
        else
          .ok val
      match typed with
      | .error e => .error e
      | .ok v =>
          match field.validator with
          | Option.none => .ok v
          | some _ =>
              match _validate_value desc field v with
              | .ok _ => .ok v
              | .error e => .error e

/-- The `for i in range(len(vals))` loop of `_check_list`, with the
`new_vals` accumulator made explicit.  (The two `print` calls of the source
before the duplicate error are stdout side effects, not modelled.) -/
def _check_list_loop (desc : String) (field : Field) (i : Nat) (vals : List Value)
    (new_vals : List Value) : Except PyErr (List Value) :=
  match vals with
  | [] => .ok new_vals
  | v :: rest =>
      match _check_list_element desc field i v with
      | .error e => .error e
      | .ok ival =>
          if ival ∈ new_vals then
            .error (.lrgaspErr (desc ++ " [" ++ toString i ++ "] field " ++ field.name ++ " duplicate value " ++ pyStr ival))
          else
            _check_list_loop desc field (i + 1) rest (new_vals ++ [ival])

def _check_list (desc : String) (field : Field) (vals : Value) : Except PyErr (List Value) :=
  match vals with
  | .list l => _check_list_loop desc field 0 l []
  | _ => .error (.lrgaspErr (desc ++ " field " ++ field.name ++ " must be a list"))

def _check_present_field (desc : String) (field : Field) (obj : Obj) : Except PyErr Obj :=
  let val := Obj.getattr obj field.name
  let emptiness : Except PyErr Unit :=
    if !field.allow_empty then
      match pyLen val with
      | .error e => .error e
      | .ok n =>
          if n == 0 then
            .error (.lrgaspErr (desc ++ " field " ++ field.name ++ " must be a non-empty " ++ field.dtype.name))
          else .ok ()
    else .ok ()
  match emptiness with
  | .error e => .error e
  | .ok _ =>
      let checked : Except PyErr Value :=
        match field.dtype with
        | .list =>
            match _check_list desc field val with
            | .ok l => .ok (.list l)
            | .error e => .error e
        | _ => _check_scalar desc field val
      match checked with
      | .error e => .error e
      | .ok v => .ok (Obj.setattr obj field.name v)

def _check_missing_field (desc : String) (field : Field) (obj : Obj) : Except PyErr Obj :=
  if !field.optional then
    .error (.lrgaspErr (desc ++ " field " ++ field.name ++ " is required"))
  else
    .ok obj

def _check_field (desc : String) (field : Field) (obj : Obj) : Except PyErr Obj :=
  if Obj.hasattr obj field.name then
    _check_present_field desc field obj
  else
    _check_missing_field desc field obj

/-- `check_from_defs`: apply the schema to the target, field by field in
schema order.  A Python exception aborts the loop and leaves the target with
whatever mutations earlier fields already made, so the result pairs the
target's final state with the exception, if any. -/
def check_from_defs (desc : String) (fields : List Field) (obj : Obj) : Obj × Option PyErr :=
  match fields with
  | [] => (obj, Option.none)
  | f :: rest =>
      match _check_field desc f obj with
      | .ok obj2 => check_from_defs desc rest obj2
      | .error e => (obj, some e)

/-- Split a character list at every occurrence of one character
(Python `str.split` on a single separator). -/
def splitOnChar (c : Char) : List Char → List (List Char)
  | [] => [[]]
  | x :: xs =>
      match splitOnChar c xs with
      | [] => [[]]
      | g :: gs => if x = c then [] :: g :: gs else (x :: g) :: gs

/-- Split a character list at the first occurrence of a pattern, when the
pattern occurs. -/
def splitFirstAt (pat : List Char) : List Char → Option (List Char × List Char)
  | [] => if pat.isEmpty then some ([], []) else Option.none
  | x :: xs =>
      if pat.isPrefixOf (x :: xs) then some ([], (x :: xs).drop pat.length)
      else
        match splitFirstAt pat xs with
        | some (a, b) => some (x :: a, b)
        | Option.none => Option.none

/-- Python `s.startswith(p)`. -/
def strStartsWith (s p : String) : Bool :=
  p.data.isPrefixOf s.data

/-- The `validators` package's email predicate.
Modelled from the spec: the `validators` library is external; the spec asks
only for "a syntactically valid email address", with `user@example.com`
accepted and `not-an-email` rejected.  Embedded as a simple syntactic check:
exactly one `@`, a nonempty local part without spaces, and a dot-separated
domain with at least two nonempty labels. -/
def validators_email (s : String) : Bool :=
  match splitOnChar '@' s.data with
  | [local_part, domain] =>
      !local_part.isEmpty && local_part.all (fun c => c ≠ ' ') &&
      (match splitOnChar '.' domain with
       | [_] => false
       | labels => labels.all (fun l => !l.isEmpty && l.all (fun c => c ≠ ' ')))
  | _ => false

/-- The `validators` package's URL predicate with `public=True`.
Modelled from the spec: external library; the spec asks for "a syntactically
valid, publicly-routable absolute URL".  Embedded as: a scheme part, `://`,
and a nonempty public host (not localhost, not a private-range prefix). -/
def validators_url (s : String) : Bool :=
  match splitFirstAt "://".data s.data with
  | some (scheme, rest) =>
      let host := rest.takeWhile (fun c => c ≠ '/')
      !scheme.isEmpty && !host.isEmpty &&
      host ≠ "localhost".data && !("127.".data.isPrefixOf host) &&
      !("10.".data.isPrefixOf host) && !("192.168.".data.isPrefixOf host)
  | Option.none => false

def validate_email (val : Value) : Except PyErr Unit :=
  match val with
  | .str s =>
      if validators_email s then .ok ()
      else .error (.lrgaspErr ("invalid email address: " ++ s))
  | v => .error (.lrgaspErr ("invalid email address: " ++ pyStr v))

def validate_url (val : Value) : Except PyErr Unit :=
  match val with
  | .str s =>
      if validators_url s then .ok ()
      else .error (.lrgaspErr ("invalid URL: " ++ s))
  | v => .error (.lrgaspErr ("invalid URL: " ++ pyStr v))

def validate_http_url (val : Value) : Except PyErr Unit :=
  match validate_url val with
  | .error e => .error e
  | .ok _ =>
      match val with
      | .str s =>
          if strStartsWith s "http:" || strStartsWith s "https:" then .ok ()
          else .error (.lrgaspErr ("must be an HTTP URL: " ++ s))
      | _ => .ok ()

/-- One character of the `[a-fA-F0-9]` class. -/
def isHexChar (c : Char) : Bool :=
  (('0' ≤ c && c ≤ '9') || ('a' ≤ c && c ≤ 'f') || ('A' ≤ c && c ≤ 'F'))

/-- Semantics of Python `re.search("^[a-fA-F0-9]{32}$", s)` (no MULTILINE):
`^` anchors the match at the start of the string, then 32 hex characters,
then `$`, which in Python matches at the end of the string or just before a
single trailing newline. -/
def re_search_md5 (s : String) : Bool :=
  let cs := s.data
  (cs.length == 32 && cs.all isHexChar) ||
  (cs.length == 33 && (cs.take 32).all isHexChar && cs.getLast? == some '\n')

def validate_md5 (val : Value) : Except PyErr Unit :=
  match val with
  | .str s =>
      if re_search_md5 s then .ok ()
      else .error (.lrgaspErr ("MD5 must be a 128-bit hexadecimal number: " ++ s))
  | _ => .error (.typeError "expected string or bytes-like object")

/-! ## Helper lemmas -/

/-- The `_check_list` loop only appends elements not already accepted, so a
duplicate-free accumulator yields a duplicate-free result. -/
theorem check_list_loop_nodup (desc : String) (field : Field) (vals : List Value) :
    ∀ (i : Nat) (acc r : List Value),
    _check_list_loop desc field i vals acc = .ok r → acc.Nodup → r.Nodup := by
  induction vals with
  | nil =>
      intro i acc r h hn
      simp only [_check_list_loop] at h
      cases h
      exact hn
  | cons v rest ih =>
      intro i acc r h hn
      simp only [_check_list_loop] at h
      cases he : _check_list_element desc field i v with
      | error e => rw [he] at h; cases h
      | ok ival =>
          rw [he] at h
          dsimp only at h
          by_cases hmem : ival ∈ acc
          · rw [if_pos hmem] at h; cases h
          · rw [if_neg hmem] at h
            refine ih (i + 1) (acc ++ [ival]) r h ?_
            simp [List.nodup_append, hn, hmem]

/-- Writing back the value a key already holds leaves the record unchanged. -/
theorem Obj.setattr_getattr_self (obj : Obj) (k : String) :
    Obj.hasattr obj k = true → Obj.setattr obj k (Obj.getattr obj k) = obj := by
  induction obj with
  | nil => simp [Obj.hasattr]
  | cons p rest ih =>
      obtain ⟨a, b⟩ := p
      intro h
      by_cases hak : (a == k) = true
      · have hak2 : a = k := by
          exact eq_of_beq hak
        simp [Obj.setattr, Obj.getattr, List.find?, hak, hak2]
      · have hne : (a == k) = false := by
          simp only [Bool.not_eq_true] at hak
          exact hak
        have h2 : Obj.hasattr rest k = true := by
          simpa [Obj.hasattr, hne] using h
        have hg : Obj.getattr ((a, b) :: rest) k = Obj.getattr rest k := by
          simp [Obj.getattr, List.find?, hne]
        rw [hg]
        simp [Obj.setattr, hne, ih h2]

/-- Every failure of the enum constructor is a `ValueError` carrying the
canonical "<repr> is not a valid <class>" message, whatever the argument's
shape. -/
theorem symEnum_construct_error (t : String) (ms : List String) (val : Value) (e : PyErr)
    (h : dtypeConstruct (DType.symEnum t ms) val = .error e) :
    e = .valueError (pyRepr val ++ " is not a valid " ++ t) := by
  cases val with
  | str s =>
      by_cases hm : s ∈ ms
      · simp [dtypeConstruct, hm] at h
      · simp [dtypeConstruct, hm] at h
        exact h.symm
  | obj t2 m =>
      by_cases hc : t = t2 ∧ m ∈ ms
      · simp [dtypeConstruct, hc] at h
      · simp only [dtypeConstruct, beq_iff_eq, if_neg hc, Except.error.injEq] at h
        exact h.symm
  | int n =>
      simp [dtypeConstruct] at h
      exact h.symm
  | dict p sz =>
      simp [dtypeConstruct] at h
      exact h.symm
  | list l =>
      simp [dtypeConstruct] at h
      exact h.symm
  | none =>
      simp [dtypeConstruct] at h
      exact h.symm

/-! ## Claims -/

/-- C2: the content-hash validator was specified to accept exactly the
strings of exactly 32 hexadecimal characters and nothing else, rejecting in
particular a trailing newline.  The source's
`re.search("^[a-fA-F0-9]{32}$", val)` indeed accepts the canonical 32-hex
digest and rejects 31-character, non-hexadecimal, and trailing-space
strings, but `$` also matches just before a single trailing newline, so the
33-character input `"d41d8cd98f00b204e9800998ecf8427e\n"` is accepted: the
code deviates from its stated format-only contract on that input. -/
theorem C2_theorem :
    validate_md5 (Value.str "d41d8cd98f00b204e9800998ecf8427e") = .ok () ∧
    validate_md5 (Value.str ("d41d8cd98f00b204e9800998ecf8427e" ++ "\n")) = .ok () ∧
    validate_md5 (Value.str "d41d8cd98f00b204e9800998ecf8427") =
      .error (.lrgaspErr "MD5 must be a 128-bit hexadecimal number: d41d8cd98f00b204e9800998ecf8427") ∧
    validate_md5 (Value.str "z41d8cd98f00b204e9800998ecf8427e") =
      .error (.lrgaspErr "MD5 must be a 128-bit hexadecimal number: z41d8cd98f00b204e9800998ecf8427e") ∧
    validate_md5 (Value.str "d41d8cd98f00b204e9800998ecf8427e ") =
      .error (.lrgaspErr "MD5 must be a 128-bit hexadecimal number: d41d8cd98f00b204e9800998ecf8427e ") := by
  refine ⟨by decide, by decide, by decide, by decide, by decide⟩

/-- C10 (counterexample): the claim also asserts that for every field name
the unsubstituted message does not contain the actual field name; the name
`"list"` is a counterexample, since it occurs verbatim inside the literal
message `"list field {name} must specify element_dtype"`. -/
theorem C10_counterexample :
    Field.new "list" DType.list =
      .error (.lrgaspErr "list field {name} must specify element_dtype") ∧
    (splitFirstAt "list".data "list field {name} must specify element_dtype".data).isSome = true := by
  exact ⟨rfl, by decide⟩

/-- C10 (amended): the error raised when constructing a `Field` with dtype
`list` and no `element_dtype` carries the source's literal message
`"list field {name} must specify element_dtype"` with the placeholder
unsubstituted: the message is the same fixed literal for every field name
and never has the name substituted into it. -/
theorem C10_theorem (nm : String) (ae opt : Bool) (v : Option Validator) :
    Field.new nm DType.list Option.none ae opt v =
      .error (.lrgaspErr "list field {name} must specify element_dtype") := rfl

/-- C3 (counterexample): constructing a `Field` with dtype `list` and no
element dtype does fail at construction time, but the exception raised is
the same `LrgaspException` class that `check_from_defs` raises for data
problems (here: a required field missing from the record), so the
configuration failure is not an error kind distinct from the data-validation
error kind. -/
theorem C3_counterexample :
    Field.new "x" DType.list =
      .error (.lrgaspErr "list field {name} must specify element_dtype") ∧
    check_from_defs "md" [⟨"req", DType.str, Option.none, false, false, Option.none⟩] [] =
      ([], some (.lrgaspErr "md field req is required")) ∧
    PyErr.className (.lrgaspErr "list field {name} must specify element_dtype") =
      PyErr.className (.lrgaspErr "md field req is required") := by
  exact ⟨rfl, by decide, rfl⟩

/-- C3 (amended): constructing a `Field` with dtype `list` and no element
dtype fails with an `LrgaspException` at construction time — `Field.new`
never touches a record — but this is the same exception class that the
schema-application path raises for data problems (exemplified by the
required-field error), not a distinct error kind. -/
theorem C3_theorem (nm : String) (ae opt : Bool) (v : Option Validator)
    (desc : String) (field : Field) (obj : Obj)
    (hopt : field.optional = false) (habs : Obj.hasattr obj field.name = false) :
    Field.new nm DType.list Option.none ae opt v =
      .error (.lrgaspErr "list field {name} must specify element_dtype") ∧
    _check_field desc field obj =
      .error (.lrgaspErr (desc ++ " field " ++ field.name ++ " is required")) ∧
    PyErr.className (.lrgaspErr "list field {name} must specify element_dtype") =
      PyErr.className (.lrgaspErr (desc ++ " field " ++ field.name ++ " is required")) := by
  refine ⟨rfl, ?_, rfl⟩
  simp [_check_field, habs, _check_missing_field, hopt]

/-- C3 (witness). -/
theorem C3_witness :
    Field.new "x" DType.list =
      .error (.lrgaspErr "list field {name} must specify element_dtype") ∧
    _check_field "md" ⟨"req", DType.str, Option.none, false, false, Option.none⟩ [] =
      .error (.lrgaspErr "md field req is required") ∧
    PyErr.className (.lrgaspErr "list field {name} must specify element_dtype") =
      PyErr.className (.lrgaspErr "md field req is required") :=
  C3_theorem "x" false false Option.none "md"
    ⟨"req", DType.str, Option.none, false, false, Option.none⟩ [] rfl rfl

/-- C4: the list checker compares each newly converted element against every
previously accepted converted element, not the raw inputs: inputs
`["a", "a"]` fail at index 1 with the duplicate-value error naming index and
field, inputs `["a", "b"]` succeed unchanged and in order, two raw inputs
that convert to the same `SymEnum` member are reported as duplicates, and
any successful result is duplicate-free. -/
theorem C4_theorem :
    _check_list "md" ⟨"f", DType.list, some DType.str, false, false, Option.none⟩
        (.list [.str "a", .str "a"]) =
      .error (.lrgaspErr "md [1] field f duplicate value a") ∧
    _check_list "md" ⟨"f", DType.list, some DType.str, false, false, Option.none⟩
        (.list [.str "a", .str "b"]) =
      .ok [.str "a", .str "b"] ∧
    _check_list "md" ⟨"sp", DType.list, some (DType.symEnum "Species" ["human"]), false, false, Option.none⟩
        (.list [.str "human", .obj "Species" "human"]) =
      .error (.lrgaspErr "md [1] field sp duplicate value human") ∧
    ∀ (desc : String) (field : Field) (vals : Value) (r : List Value),
      _check_list desc field vals = .ok r → r.Nodup := by
  refine ⟨by decide, by decide, by decide, ?_⟩
  intro desc field vals r h
  cases vals with
  | list l =>
      simp only [_check_list] at h
      exact check_list_loop_nodup desc field l 0 [] r h (by simp)
  | str s => simp [_check_list] at h
  | int n => simp [_check_list] at h
  | dict p sz => simp [_check_list] at h
  | obj t m => simp [_check_list] at h
  | none => simp [_check_list] at h

/-- C4 (witness): the duplicate-freedom clause applied to the successful
`["a", "b"]` run. -/
theorem C4_witness : ([Value.str "a", Value.str "b"] : List Value).Nodup :=
  C4_theorem.2.2.2 "md" ⟨"f", DType.list, some DType.str, false, false, Option.none⟩
    (.list [.str "a", .str "b"]) [.str "a", .str "b"] (by decide)

/-- C5: `check_from_defs` is fail-fast over schema order: if the fields
before `f` all succeed, turning the target `obj` into `obj2`, and `f` fails
on `obj2` with `e`, then the whole call over any schema `fs1 ++ f :: fs2`
reports exactly `e`, the fields `fs2` after the failing one contribute
nothing, and the target is left in the state `obj2` produced by the earlier
fields (no atomicity across the record). -/
theorem C5_theorem (desc : String) (fs1 : List Field) :
    ∀ (f : Field) (fs2 : List Field) (obj obj2 : Obj) (e : PyErr),
    check_from_defs desc fs1 obj = (obj2, Option.none) →
    _check_field desc f obj2 = .error e →
    check_from_defs desc (fs1 ++ f :: fs2) obj = (obj2, some e) := by
  induction fs1 with
  | nil =>
      intro f fs2 obj obj2 e h1 h2
      simp only [check_from_defs] at h1
      cases h1
      simp [check_from_defs, h2]
  | cons g gs ih =>
      intro f fs2 obj obj2 e h1 h2
      simp only [check_from_defs] at h1
      rw [List.cons_append]
      simp only [check_from_defs]
      cases hg : _check_field desc g obj with
      | error e2 => rw [hg] at h1; dsimp only at h1; simp at h1
      | ok obj3 =>
          rw [hg] at h1
          dsimp only at h1
          dsimp only
          exact ih f fs2 obj3 obj2 e h1 h2

/-- C5 (witness): a two-field schema where the first field succeeds and is
written back converted (so the target is already mutated) and the second,
required, field is missing; the reported error is the second field's and the
third field is never reached. -/
theorem C5_witness :
    check_from_defs "md"
        [⟨"a", DType.symEnum "Species" ["human"], Option.none, false, false, Option.none⟩,
         ⟨"b", DType.str, Option.none, false, false, Option.none⟩,
         ⟨"c", DType.str, Option.none, false, false, Option.none⟩]
        [("a", .str "human")] =
      ([("a", .obj "Species" "human")], some (.lrgaspErr "md field b is required")) ∧
    ([("a", Value.obj "Species" "human")] : Obj) ≠ [("a", Value.str "human")] := by
  refine ⟨?_, by decide⟩
  exact C5_theorem "md" [⟨"a", DType.symEnum "Species" ["human"], Option.none, false, false, Option.none⟩]
    ⟨"b", DType.str, Option.none, false, false, Option.none⟩
    [⟨"c", DType.str, Option.none, false, false, Option.none⟩]
    [("a", .str "human")] [("a", .obj "Species" "human")]
    (.lrgaspErr "md field b is required") (by decide) (by decide)

/-- C6: for a field whose name is absent from the target record,
`check_from_defs`'s per-field step fails with the "is required"
`ValidationError` naming the field when the field is not optional, and does
nothing when it is optional — the record is returned unchanged, so the field
remains absent. -/
theorem C6_theorem (desc : String) (field : Field) (obj : Obj)
    (habs : Obj.hasattr obj field.name = false) :
    (field.optional = false →
      _check_field desc field obj =
        .error (.lrgaspErr (desc ++ " field " ++ field.name ++ " is required"))) ∧
    (field.optional = true → _check_field desc field obj = .ok obj) := by
  constructor <;> intro hopt <;>
    simp [_check_field, habs, _check_missing_field, hopt]

/-- C1 (counterexample): with the built-in email validator attached to a
string field, a failing value does not produce the wrapped
`"not valid: <value>"` `ValidationError`: the validator's own
`LrgaspException` is not a `ValueError`, so it escapes the
`except ValueError` clause of `_validate_value` and propagates with its own
message. -/
theorem C1_counterexample :
    _check_scalar "md" ⟨"contact", DType.str, Option.none, false, false, some validate_email⟩
        (.str "not-an-email") =
      .error (.lrgaspErr "invalid email address: not-an-email") ∧
    (Except.error (PyErr.lrgaspErr "invalid email address: not-an-email") : Except PyErr Value) ≠
      .error (.lrgaspErr "md field contact is not valid: not-an-email") := by
  exact ⟨by decide, by decide⟩

/-- C1 (amended): when the attached validator raises a `ValueError` on the
(possibly converted) value, the scalar check re-raises it as the
`ValidationError` `"not valid: <value>"` carrying the field name and
description; the built-in validators, however, raise `LrgaspException`
directly, which is not a `ValueError` and therefore propagates with the
validator's own message instead of being wrapped (shown here for the email
validator). -/
theorem C1_theorem (desc : String) (field : Field) (s : String)
    (hdt : field.dtype = DType.str) :
    (∀ (f : Validator) (m : String), field.validator = some f →
      f (.str s) = .error (.valueError m) →
      _check_scalar desc field (.str s) =
        .error (.lrgaspErr (desc ++ " field " ++ field.name ++ " is not valid: " ++ s))) ∧
    (field.validator = some validate_email → validators_email s = false →
      _check_scalar desc field (.str s) =
        .error (.lrgaspErr ("invalid email address: " ++ s))) := by
  obtain ⟨nm, dt, edt, ae, opt, v⟩ := field
  simp only at hdt
  subst hdt
  constructor
  · intro f m hv hf
    dsimp only at hv
    subst hv
    simp [_check_scalar, _should_convert, isinstance, _validate_value, hf, pyStr]
  · intro hv hem
    dsimp only at hv
    subst hv
    simp [_check_scalar, _should_convert, isinstance, _validate_value, validate_email, hem, pyStr]

/-- C1 (witness): a `ValueError`-raising validator is wrapped; the built-in
email validator's failure propagates unwrapped. -/
theorem C1_witness :
    _check_scalar "md" ⟨"x", DType.str, Option.none, false, false,
        some (fun _ => .error (.valueError "bad"))⟩ (.str "v") =
      .error (.lrgaspErr "md field x is not valid: v") ∧
    _check_scalar "md" ⟨"contact2", DType.str, Option.none, false, false, some validate_email⟩
        (.str "not-an-email") =
      .error (.lrgaspErr "invalid email address: not-an-email") :=
  ⟨( C1_theorem "md" ⟨"x", DType.str, Option.none, false, false,
        some (fun _ => .error (.valueError "bad"))⟩ "v" rfl).1
      (fun _ => .error (.valueError "bad")) "bad" rfl rfl,
   ( C1_theorem "md" ⟨"contact2", DType.str, Option.none, false, false, some validate_email⟩
      "not-an-email" rfl).2 rfl (by decide)⟩

/-- C7: the scalar checker, for a declared type among the no-conversion
primitive kinds (`str`, `int`, `dict`), fails with the `"must be a <kind>"`
`ValidationError` whenever the value is not an instance of that kind; for
every other declared type it applies the type's canonical constructor: a
constructor `ValueError` is wrapped as `"not a valid <kind>: <value>"`, and
for the module's convertible enum dtype every constructor failure whatsoever
is such a `ValueError` (CPython's `Enum.__new__` ends every failed lookup in
`ValueError`), so whenever conversion is impossible the scalar check fails
with exactly that `ValidationError`. -/
theorem C7_theorem (desc : String) (field : Field) (val : Value) :
    ((field.dtype = DType.str ∨ field.dtype = DType.int ∨ field.dtype = DType.dict) →
      isinstance val field.dtype = false →
      _check_scalar desc field val =
        .error (.lrgaspErr (desc ++ " field " ++ field.name ++ " must be a " ++ field.dtype.name))) ∧
    (∀ m, _should_convert field.dtype = true →
      dtypeConstruct field.dtype val = .error (.valueError m) →
      _check_scalar desc field val =
        .error (.lrgaspErr (desc ++ " field " ++ field.name ++ " is not a valid " ++
          field.dtype.name ++ ": " ++ pyStr val))) ∧
    (∀ (tyName : String) (members : List String) (e : PyErr),
      field.dtype = DType.symEnum tyName members →
      dtypeConstruct field.dtype val = .error e →
      _check_scalar desc field val =
        .error (.lrgaspErr (desc ++ " field " ++ field.name ++ " is not a valid " ++
          tyName ++ ": " ++ pyStr val))) := by
  obtain ⟨nm, dt, edt, ae, opt, v⟩ := field
  refine ⟨?_, ?_, ?_⟩
  · intro hdt hiso
    simp only at hdt hiso ⊢
    rcases hdt with h | h | h <;> subst h <;>
      simp [_check_scalar, _should_convert, hiso]
  · intro m hsc hdc
    simp only at hsc hdc ⊢
    simp [_check_scalar, hsc, _convert_type, hdc]
  · intro tyName members e hdt hdc
    simp only at hdt hdc ⊢
    subst hdt
    have he := symEnum_construct_error tyName members val e hdc
    subst he
    simp [_check_scalar, _should_convert, _convert_type, hdc, DType.name]

/-- C7 (witness): a non-int for an `int` field fails the instance test; a
non-member string for an enum field is wrapped from the constructor's
`ValueError`; an unhashable mapping for an enum field — whose constructor
failure is likewise a `ValueError` — is wrapped the same way. -/
theorem C7_witness :
    _check_scalar "md" ⟨"t", DType.int, Option.none, false, false, Option.none⟩ (.str "x") =
      .error (.lrgaspErr "md field t must be a int") ∧
    _check_scalar "md" ⟨"sp", DType.symEnum "Species" ["human"], Option.none, false, false, Option.none⟩
        (.str "dog") =
      .error (.lrgaspErr "md field sp is not a valid Species: dog") ∧
    _check_scalar "md" ⟨"sp", DType.symEnum "Species" ["human"], Option.none, false, false, Option.none⟩
        (.dict "\x7b\x7d" 0) =
      .error (.lrgaspErr "md field sp is not a valid Species: \x7b\x7d") :=
  ⟨( C7_theorem "md" ⟨"t", DType.int, Option.none, false, false, Option.none⟩ (.str "x")).1
      (Or.inr (Or.inl rfl)) (by decide),
   ( C7_theorem "md" ⟨"sp", DType.symEnum "Species" ["human"], Option.none, false, false, Option.none⟩
      (.str "dog")).2.1 "\x27dog\x27 is not a valid Species" rfl (by decide),
   ( C7_theorem "md" ⟨"sp", DType.symEnum "Species" ["human"], Option.none, false, false, Option.none⟩
      (.dict "\x7b\x7d" 0)).2.2 "Species" ["human"]
      (.valueError "\x7b\x7d is not a valid Species") rfl (by decide)⟩

/-- C8: for a present field with `allow_empty = false` and a zero-length
current value, the check fails with the "must be a non-empty <kind>"
`ValidationError` whatever the declared type or validator — the length test
precedes all type checking and conversion; the same situation with
`allow_empty = true` succeeds with the record, and hence the value,
unchanged. -/
theorem C8_theorem :
    (∀ (desc : String) (field : Field) (obj : Obj),
      Obj.hasattr obj field.name = true → field.allow_empty = false →
      pyLen (Obj.getattr obj field.name) = .ok 0 →
      _check_field desc field obj =
        .error (.lrgaspErr (desc ++ " field " ++ field.name ++ " must be a non-empty " ++
          field.dtype.name))) ∧
    (∀ (desc nm : String) (opt : Bool) (obj : Obj),
      Obj.hasattr obj nm = true → Obj.getattr obj nm = .str "" →
      _check_field desc ⟨nm, DType.str, Option.none, true, opt, Option.none⟩ obj = .ok obj) := by
  constructor
  · intro desc field obj hpres hae hlen
    simp [_check_field, hpres, _check_present_field, hae, hlen]
  · intro desc nm opt obj hpres hval
    have hself := Obj.setattr_getattr_self obj nm hpres
    rw [hval] at hself
    simp [_check_field, hpres, _check_present_field, hval, _check_scalar,
      _should_convert, isinstance, hself]

/-- C8 (witness): an empty string under `allow_empty = false` fails with the
non-empty error regardless of the would-be scalar check; the same record
under `allow_empty = true` is returned unchanged. -/
theorem C8_witness :
    _check_field "md" ⟨"s", DType.str, Option.none, false, false, Option.none⟩ [("s", .str "")] =
      .error (.lrgaspErr "md field s must be a non-empty str") ∧
    _check_field "md" ⟨"s", DType.str, Option.none, true, false, Option.none⟩ [("s", .str "")] =
      .ok [("s", .str "")] :=
  ⟨C8_theorem.1 "md" ⟨"s", DType.str, Option.none, false, false, Option.none⟩
      [("s", .str "")] (by decide) rfl (by decide),
   C8_theorem.2 "md" "s" false [("s", .str "")] (by decide) (by decide)⟩

/-- C9: the emptiness check applies `len` to the raw current value before
any type checking, so a present `int`-typed, non-`allow_empty` field whose
value is an integer makes `check_from_defs` fail with the raw `TypeError`
from `len` — not a `ValidationError` (`LrgaspException`) — even though the
value is an instance of the declared type. -/
theorem C9_theorem (desc nm : String) (n : Int) (opt : Bool) (obj : Obj)
    (hpres : Obj.hasattr obj nm = true) (hval : Obj.getattr obj nm = .int n) :
    check_from_defs desc [⟨nm, DType.int, Option.none, false, opt, Option.none⟩] obj =
      (obj, some (.typeError "object of type \x27int\x27 has no len()")) ∧
    isinstance (.int n) DType.int = true ∧
    PyErr.className (.typeError "object of type \x27int\x27 has no len()") ≠ "LrgaspException" := by
  refine ⟨?_, rfl, by decide⟩
  simp [check_from_defs, _check_field, hpres, _check_present_field, hval, pyLen]

/-- C9 (witness). -/
theorem C9_witness :
    check_from_defs "md" [⟨"n", DType.int, Option.none, false, false, Option.none⟩]
        [("n", .int 3)] =
      ([("n", .int 3)], some (.typeError "object of type \x27int\x27 has no len()")) ∧
    isinstance (.int 3) DType.int = true ∧
    PyErr.className (.typeError "object of type \x27int\x27 has no len()") ≠ "LrgaspException" :=
  C9_theorem "md" "n" 3 false [("n", .int 3)] (by decide) rfl

/-- C6 (witness): a required absent field errors; an optional absent field
leaves the record untouched. -/
theorem C6_witness :
    _check_field "md" ⟨"r", DType.str, Option.none, false, false, Option.none⟩ [("other", .int 1)] =
      .error (.lrgaspErr "md field r is required") ∧
    _check_field "md" ⟨"o", DType.str, Option.none, false, true, Option.none⟩ [("other", .int 1)] =
      .ok [("other", .int 1)] :=
  ⟨( C6_theorem "md" ⟨"r", DType.str, Option.none, false, false, Option.none⟩
      [("other", .int 1)] (by decide)).1 rfl,
   ( C6_theorem "md" ⟨"o", DType.str, Option.none, false, true, Option.none⟩
      [("other", .int 1)] (by decide)).2 rfl⟩

end Lrgasp
